import Mathlib

/-!
# Verification of the pic-sorter pipeline (src/main.go)

Shallow embedding of the Go program that sorts images into
`sorted_images/<country>/<state>/<state_district>/<county>/` by reverse
geocoding their EXIF GPS coordinates.

Strings are modelled as `List Char`.  The external collaborators (EXIF
library, HTTP transport, JSON unmarshaller, filesystem) are modelled as
oracle inputs; everything implemented in `main.go` (`sanitize`,
`getString`, `getLocationDetails`, `moveImage`, `processImages`) is
translated directly, together with the Go standard-library path functions
(`filepath.Join`, `filepath.Clean`, `filepath.Base`, `strings.HasSuffix`,
`strings.ReplaceAll`) that the source calls.
-/

namespace PicSorter

/-- The string type of the embedding: a Go string as its list of characters. -/
abbrev Str := List Char

/-- `strings.ReplaceAll(name, " ", "_")` specialised to the one-character
pattern and replacement used by the source: every occurrence of the pattern
character is replaced, all other characters are kept in place. -/
def replaceAllChar (s : Str) (pat rep : Char) : Str :=
  s.map (fun c => if c = pat then rep else c)

/-- `sanitize` from main.go: `strings.ReplaceAll(name, " ", "_")`. -/
def sanitize (name : Str) : Str :=
  replaceAllChar name ' ' '_'

/-- `strings.HasSuffix(s, suffix)`:
`len(s) >= len(suffix) && s[len(s)-len(suffix):] == suffix`. -/
def goHasSuffix (s suffix : Str) : Bool :=
  decide (suffix.length ≤ s.length) && decide (s.drop (s.length - suffix.length) = suffix)

/-- Split a path on the separator `'/'`; `splitSlash p` always returns at
least one (possibly empty) component.  Mirrors how `path.Clean` walks the
separator-delimited elements of a path. -/
def splitSlash : Str → List Str
  | [] => [[]]
  | c :: rest =>
    if c = '/' then [] :: splitSlash rest
    else
      match splitSlash rest with
      | [] => [[c]]
      | s :: ss => (c :: s) :: ss

/-- `strings.Join(elems, "/")`. -/
def joinSlash : List Str → Str
  | [] => []
  | [s] => s
  | s :: rest => s ++ '/' :: joinSlash rest

/-- One element step of `path.Clean`'s scan: `acc` is the stack of output
elements so far, `rooted` tells whether the path started with `'/'`.
Empty elements and `"."` are dropped; `".."` pops the previous element
(dropped at the root of a rooted path, kept when there is nothing to pop in
a relative path); any other element is appended. -/
def cleanStep (rooted : Bool) (acc : List Str) (el : Str) : List Str :=
  if el = [] ∨ el = ['.'] then acc
  else if el = ['.', '.'] then
    if rooted then acc.dropLast
    else if acc = [] ∨ acc.getLast? = some ['.', '.'] then acc ++ [el]
    else acc.dropLast
  else acc ++ [el]

/-- `path.Clean` (and `filepath.Clean` on unix): shortest lexical
equivalent of the path — duplicate separators, `.` elements and resolvable
`..` elements are removed; the empty path cleans to `"."`. -/
def pathClean (p : Str) : Str :=
  if p = [] then ['.']
  else
    let rooted := decide (p.head? = some '/')
    let elems := (splitSlash p).foldl (cleanStep rooted) []
    if rooted then '/' :: joinSlash elems
    else if elems = [] then ['.'] else joinSlash elems

/-- `filepath.Join(elem...)` on unix: drop leading empty elements, join the
rest with `'/'` and clean the result; all-empty input yields `""`. -/
def filepathJoin (elems : List Str) : Str :=
  match elems.dropWhile List.isEmpty with
  | [] => []
  | es => pathClean (joinSlash es)

/-- `filepath.Base(path)` on unix: `"."` for the empty path, otherwise the
last element after stripping trailing separators; `"/"` if the path
consists entirely of separators. -/
def filepathBase (path : Str) : Str :=
  if path = [] then ['.']
  else
    let p := (path.reverse.dropWhile (fun c => c = '/')).reverse
    let b := (p.reverse.takeWhile (fun c => c ≠ '/')).reverse
    if b = [] then ['/'] else b

/-! ## JSON values and the geocoding client -/

/-- A decoded JSON value as Go's `encoding/json` produces it inside
`map[string]interface{}`: `null` becomes a nil interface, booleans and
strings keep their values, objects become `map[string]interface{}`
(unique keys) and arrays become `[]interface{}`.  A JSON number becomes a
`float64`; since no claim inspects numeric values, a number is carried
abstractly as the string `fmt` would render it with (`%v`). -/
inductive Json where
  | null
  | bool (b : Bool)
  | num (rendering : Str)
  | str (s : Str)
  | arr (xs : List Json)
  | obj (fields : List (Str × Json))

/-- Lookup in a Go map modelled as an association list.  Maps produced by
`json.Unmarshal` have unique keys, so first-match lookup is exact. -/
def assocLookup {α : Type} : List (Str × α) → Str → Option α
  | [], _ => none
  | (k, v) :: rest, key => if k = key then some v else assocLookup rest key

/-- Strict lexicographic order on strings by character code, the order in
which `fmt` prints the keys of a `map[string]interface{}`. -/
def strLt : Str → Str → Bool
  | [], [] => false
  | [], _ :: _ => true
  | _ :: _, [] => false
  | a :: as, b :: bs =>
    if a.val < b.val then true
    else if b.val < a.val then false
    else strLt as bs

/-- Insert a rendered key/value pair into a key-sorted list. -/
def insertByKey (kv : Str × Str) : List (Str × Str) → List (Str × Str)
  | [] => [kv]
  | kv' :: rest =>
    if strLt kv.1 kv'.1 then kv :: kv' :: rest
    else kv' :: insertByKey kv rest

/-- Sort rendered key/value pairs by key, as `fmt` sorts map keys. -/
def sortByKey (kvs : List (Str × Str)) : List (Str × Str) :=
  kvs.foldr insertByKey []

/-- Join rendered items with single spaces, as `fmt` lays out the contents
of slices and maps. -/
def joinSpace : List Str → Str
  | [] => []
  | [s] => s
  | s :: rest => s ++ ' ' :: joinSpace rest

mutual
/-- `fmt.Sprintf("%v", value)` on a value decoded from JSON: a nil
interface prints as `<nil>`, booleans as `true`/`false`, a string as
itself, a slice as its space-separated elements in brackets, and a map as
`map[k1:v1 k2:v2]` with the keys sorted. -/
def govString : Json → Str
  | .null => '<' :: 'n' :: 'i' :: 'l' :: ['>']
  | .bool true => 't' :: 'r' :: 'u' :: ['e']
  | .bool false => 'f' :: 'a' :: 'l' :: 's' :: ['e']
  | .num rendering => rendering
  | .str s => s
  | .arr xs => '[' :: (joinSpace (govStringList xs) ++ [']'])
  | .obj fields =>
    'm' :: 'a' :: 'p' :: '[' ::
      (joinSpace ((sortByKey (govStringFields fields)).map
        (fun kv => kv.1 ++ ':' :: kv.2)) ++ [']'])

/-- Render every element of a JSON array with `%v`. -/
def govStringList : List Json → List Str
  | [] => []
  | x :: xs => govString x :: govStringList xs

/-- Render every value of a JSON object with `%v`, keeping the keys. -/
def govStringFields : List (Str × Json) → List (Str × Str)
  | [] => []
  | (k, v) :: rest => (k, govString v) :: govStringFields rest
end

/-- `getString` from main.go: if the key is found in the map its value is
rendered with `fmt.Sprintf("%v", value)`, otherwise the literal
`"Unknown"` is returned. -/
def getString (data : List (Str × Json)) (key : Str) : Str :=
  match assocLookup data key with
  | some value => govString value
  | none => "Unknown".data

/-- Outcome of `io.ReadAll` followed by `json.Unmarshal` into
`map[string]interface{}`: reading the body can fail, unmarshalling can
fail, or a decoded object results.  (A body of JSON `null` unmarshals to a
nil map, which behaves as the empty object on lookup.) -/
inductive BodyDecode where
  | readErr (e : Str)
  | unmarshalErr (e : Str)
  | decoded (data : List (Str × Json))

/-- Outcome of `http.Get`: the transport fails, or a response with a
status code and a body arrives. -/
inductive FetchResult where
  | transportErr (e : Str)
  | response (status : Nat) (body : BodyDecode)

/-- `getLocationDetails` from main.go, as a function of the fetched
response: propagate a transport error; reject a status other than 200 with
`"API error: <status>"`; propagate read and unmarshal errors; require the
value at key `"address"` to be an object, else fail with
`"invalid address data"`; and build the location map with `getString` for
the four fields. -/
def getLocationDetails (r : FetchResult) : Except Str (List (Str × Str)) :=
  match r with
  | .transportErr e => .error e
  | .response status body =>
    if status ≠ 200 then .error ("API error: ".data ++ (Nat.repr status).data)
    else
      match body with
      | .readErr e => .error e
      | .unmarshalErr e => .error e
      | .decoded data =>
        match assocLookup data "address".data with
        | some (Json.obj address) =>
          .ok [("country".data, getString address "country".data),
               ("state".data, getString address "state".data),
               ("state_district".data, getString address "state_district".data),
               ("county".data, getString address "county".data)]
        | _ => .error "invalid address data".data

/-! ## The mover and the driver -/

/-- Reading `location["key"]` from a Go `map[string]string`: the value if
the key is present, the zero value `""` otherwise. -/
def mapGetD (m : List (Str × Str)) (key : Str) : Str :=
  (assocLookup m key).getD []

/-- The folder path `moveImage` builds:
`filepath.Join("sorted_images", sanitize(country), sanitize(state),
sanitize(state_district), sanitize(county))`. -/
def moveImageFolder (location : List (Str × Str)) : Str :=
  filepathJoin
    ["sorted_images".data,
     sanitize (mapGetD location "country".data),
     sanitize (mapGetD location "state".data),
     sanitize (mapGetD location "state_district".data),
     sanitize (mapGetD location "county".data)]

/-- The new path `moveImage` renames the source to:
`filepath.Join(folderPath, filepath.Base(imagePath))`. -/
def moveImageNewPath (imagePath : Str) (location : List (Str × Str)) : Str :=
  filepathJoin [moveImageFolder location, filepathBase imagePath]

/-- A directory entry as `os.ReadDir` reports it: a name and whether the
entry is a directory. -/
structure DirEntry where
  name : Str
  isDir : Bool

/-- GPS coordinates extracted from EXIF.  No claim inspects the numeric
values, so the `float64` pair is carried as an opaque token. -/
structure Coord where
  lat : Int
  lon : Int

/-- The external collaborators of one run, as oracles: the EXIF extractor
per image path, the HTTP fetch per coordinate, and the outcomes of
`os.MkdirAll` per folder path and `os.Rename` per old/new path pair
(`none` meaning success). -/
structure Env where
  exif : Str → Except Str Coord
  geo : Coord → FetchResult
  mkdirErr : Str → Option Str
  renameErr : Str → Str → Option Str

/-- `moveImage` from main.go: build the folder path, `os.MkdirAll` it
(propagating an error), then `os.Rename` the image to
`filepath.Join(folderPath, filepath.Base(imagePath))` (propagating an
error).  On success the value is the new path the file was renamed to. -/
def moveImage (env : Env) (imagePath : Str) (location : List (Str × Str)) :
    Except Str Str :=
  match env.mkdirErr (moveImageFolder location) with
  | some e => .error e
  | none =>
    match env.renameErr imagePath (moveImageNewPath imagePath location) with
    | some e => .error e
    | none => .ok (moveImageNewPath imagePath location)

/-- The candidate test inlined in `processImages`:
`!file.IsDir() && (strings.HasSuffix(file.Name(), ".jpg") ||
strings.HasSuffix(file.Name(), ".jpeg") ||
strings.HasSuffix(file.Name(), ".png"))`. -/
def isCandidate (f : DirEntry) : Bool :=
  !f.isDir &&
    (goHasSuffix f.name ".jpg".data || goHasSuffix f.name ".jpeg".data ||
     goHasSuffix f.name ".png".data)

/-- The `Moving <name> to <country>/<state>/<state_district>/<county>` line
printed before the mover runs, with the unsanitized map values. -/
def movingLine (name : Str) (location : List (Str × Str)) : Str :=
  "Moving ".data ++ name ++ " to ".data ++
    mapGetD location "country".data ++ '/' ::
    (mapGetD location "state".data ++ '/' ::
      (mapGetD location "state_district".data ++ '/' ::
        mapGetD location "county".data))

/-- The body of the `processImages` loop for a single directory entry:
the stdout lines it prints and the renames it performs.  A non-candidate
entry is skipped; an EXIF failure, a geocoding failure and a move failure
each end the iteration after their log line. -/
def processOne (env : Env) (directory : Str) (f : DirEntry) :
    List Str × List (Str × Str) :=
  if isCandidate f then
    let imagePath := filepathJoin [directory, f.name]
    match env.exif imagePath with
    | .error _ => (["No GPS data found for ".data ++ f.name], [])
    | .ok coord =>
      match getLocationDetails (env.geo coord) with
      | .error e =>
        (["Error getting location for ".data ++ f.name ++ ": ".data ++ e], [])
      | .ok location =>
        match moveImage env imagePath location with
        | .error e =>
          ([movingLine f.name location, "Error moving file: ".data ++ e], [])
        | .ok newPath =>
          ([movingLine f.name location], [(imagePath, newPath)])
  else ([], [])

/-- `processImages` from main.go over an already-listed directory: iterate
the entries in listing order, printing each entry's lines and performing
each entry's rename.  (The fatal `os.ReadDir` failure terminates the
process before this loop and is outside the per-file model.) -/
def processImages (env : Env) (directory : Str) :
    List DirEntry → List Str × List (Str × Str)
  | [] => ([], [])
  | f :: fs =>
    let here := processOne env directory f
    let rest := processImages env directory fs
    (here.1 ++ rest.1, here.2 ++ rest.2)

/-! ## Basic facts about the sanitizer -/

theorem sanitize_length (s : Str) : (sanitize s).length = s.length := by
  simp [sanitize, replaceAllChar]

theorem sanitize_not_mem_space (s : Str) : ' ' ∉ sanitize s := by
  intro h
  obtain ⟨c, _, hc⟩ := List.mem_map.mp h
  by_cases h' : c = ' ' <;> simp [h'] at hc

theorem sanitize_idem (s : Str) : sanitize (sanitize s) = sanitize s := by
  induction s with
  | nil => rfl
  | cons c cs ih =>
    by_cases h : c = ' ' <;>
      simp_all [sanitize, replaceAllChar]

theorem sanitize_getElem? (s : Str) (i : Nat) (h : s[i]? ≠ some ' ') :
    (sanitize s)[i]? = s[i]? := by
  rw [sanitize, replaceAllChar, List.getElem?_map]
  cases hs : s[i]? with
  | none => rfl
  | some c =>
    have hc : c ≠ ' ' := by
      intro h'
      exact h (by simpa [h'] using hs)
    simp [hc]

/-- C3: `sanitize` is total on strings; for every input `s` its output
contains no ASCII space, `sanitize` is idempotent, and every character of
`s` other than ASCII space passes through unchanged in its position (the
output has the same length and agrees with the input at every index whose
character is not a space). -/
theorem claim_c3_sanitize_total (s : Str) :
    ' ' ∉ sanitize s ∧
    sanitize (sanitize s) = sanitize s ∧
    (sanitize s).length = s.length ∧
    ∀ i : Nat, s[i]? ≠ some ' ' → (sanitize s)[i]? = s[i]? :=
  ⟨sanitize_not_mem_space s, sanitize_idem s, sanitize_length s,
   fun i h => sanitize_getElem? s i h⟩

/-- Witness for C3 at the concrete string `"a b/ç"`: no space in the
output, idempotence, length preservation, and the non-space character at
index 0 kept in place. -/
theorem claim_c3_sanitize_total_witness :
    ' ' ∉ sanitize ('a' :: ' ' :: 'b' :: '/' :: ['ç']) ∧
    sanitize (sanitize ('a' :: ' ' :: 'b' :: '/' :: ['ç'])) =
      sanitize ('a' :: ' ' :: 'b' :: '/' :: ['ç']) ∧
    (sanitize ('a' :: ' ' :: 'b' :: '/' :: ['ç'])).length = 5 ∧
    (sanitize ('a' :: ' ' :: 'b' :: '/' :: ['ç']))[0]? = some 'a' := by
  obtain ⟨h1, h2, h3, h4⟩ := claim_c3_sanitize_total ('a' :: ' ' :: 'b' :: '/' :: ['ç'])
  refine ⟨h1, h2, h3, ?_⟩
  rw [h4 0 (by decide)]
  rfl

/-! ## The candidate filter -/

theorem goHasSuffix_iff (s suffix : Str) :
    goHasSuffix s suffix = true ↔ ∃ pre, s = pre ++ suffix := by
  unfold goHasSuffix
  simp only [Bool.and_eq_true, decide_eq_true_eq]
  constructor
  · rintro ⟨hlen, hdrop⟩
    refine ⟨s.take (s.length - suffix.length), ?_⟩
    conv_lhs => rw [← List.take_append_drop (s.length - suffix.length) s]
    rw [hdrop]
  · rintro ⟨pre, rfl⟩
    have hlen : (pre ++ suffix).length - suffix.length = pre.length := by
      simp
    refine ⟨by simp, ?_⟩
    rw [hlen, List.drop_left]

/-- A disabled environment: every oracle fails or is inert.  Used only to
instantiate universally quantified driver statements at a concrete input. -/
def envNone : Env where
  exif := fun _ => .error "exif failure".data
  geo := fun _ => .transportErr "network down".data
  mkdirErr := fun _ => none
  renameErr := fun _ _ => none

/-- C5: a directory entry is a candidate image iff it is not a directory
and its name ends, case-sensitively, in `.jpg`, `.jpeg` or `.png`;
non-candidates contribute nothing to the run (no output lines, no renames);
and a name ending in `.JPG` is not a candidate. -/
theorem claim_c5_candidate_filter (f : DirEntry) :
    (isCandidate f = true ↔
      f.isDir = false ∧
        ((∃ pre, f.name = pre ++ ".jpg".data) ∨
         (∃ pre, f.name = pre ++ ".jpeg".data) ∨
         (∃ pre, f.name = pre ++ ".png".data))) ∧
    (isCandidate f = false →
      ∀ env directory fs,
        processImages env directory (f :: fs) = processImages env directory fs) ∧
    isCandidate ⟨"photo.JPG".data, false⟩ = false := by
  refine ⟨?_, ?_, by decide⟩
  · unfold isCandidate
    rw [Bool.and_eq_true, Bool.not_eq_true', Bool.or_eq_true, Bool.or_eq_true,
      goHasSuffix_iff, goHasSuffix_iff, goHasSuffix_iff]
    tauto
  · intro h env directory fs
    simp [processImages, processOne, h]

/-- Witness for C5: `photo.JPG` fails the filter and is skipped by a run,
while `photo.jpg` passes the filter. -/
theorem claim_c5_candidate_filter_witness :
    processImages envNone "images".data [⟨"photo.JPG".data, false⟩] =
      processImages envNone "images".data [] ∧
    isCandidate ⟨"photo.jpg".data, false⟩ = true := by
  constructor
  · exact (claim_c5_candidate_filter ⟨"photo.JPG".data, false⟩).2.1 (by decide)
      envNone "images".data []
  · exact (claim_c5_candidate_filter ⟨"photo.jpg".data, false⟩).1.mpr
      ⟨rfl, Or.inl ⟨"photo".data, by decide⟩⟩

/-! ## The geocoding client -/

/-- C2: whenever the decoded body's `address` member is an object, the
client succeeds with the four fields read through `getString`; a present
key is stringified with `%v`, an absent key becomes the literal
`"Unknown"`, and with all four keys absent the Place is all-`Unknown` and
still a success. -/
theorem claim_c2_geocode_success (data address : List (Str × Json))
    (h : assocLookup data "address".data = some (Json.obj address)) :
    getLocationDetails (.response 200 (.decoded data)) =
      .ok [("country".data, getString address "country".data),
           ("state".data, getString address "state".data),
           ("state_district".data, getString address "state_district".data),
           ("county".data, getString address "county".data)] ∧
    (∀ key v, assocLookup address key = some v →
      getString address key = govString v) ∧
    (∀ key, assocLookup address key = none →
      getString address key = "Unknown".data) ∧
    (assocLookup address "country".data = none →
      assocLookup address "state".data = none →
      assocLookup address "state_district".data = none →
      assocLookup address "county".data = none →
      getLocationDetails (.response 200 (.decoded data)) =
        .ok [("country".data, "Unknown".data),
             ("state".data, "Unknown".data),
             ("state_district".data, "Unknown".data),
             ("county".data, "Unknown".data)]) := by
  refine ⟨by simp [getLocationDetails, h], ?_, ?_, ?_⟩
  · intro key v hv
    simp [getString, hv]
  · intro key hk
    simp [getString, hk]
  · intro h1 h2 h3 h4
    simp [getLocationDetails, h, getString, h1, h2, h3, h4]

/-- Witness for C2: a response whose address object carries only a
`country` string; the other three fields come back `Unknown`. -/
theorem claim_c2_geocode_success_witness :
    getLocationDetails (.response 200 (.decoded
      [("address".data, Json.obj [("country".data, Json.str "France".data)])])) =
      .ok [("country".data, "France".data),
           ("state".data, "Unknown".data),
           ("state_district".data, "Unknown".data),
           ("county".data, "Unknown".data)] := by
  have h := claim_c2_geocode_success
    [("address".data, Json.obj [("country".data, Json.str "France".data)])]
    [("country".data, Json.str "France".data)] rfl
  rw [h.1]
  rfl

/-- C6: the client fails exactly when the transport fails (including a
failed body read), the status is not 200, the body does not unmarshal, or
the decoded object's `address` member is absent or not an object; a non-200
status produces the message `API error: <status>` (the one fetch is never
retried), and a bad `address` member produces `invalid address data`. -/
theorem claim_c6_geocode_failure (r : FetchResult) :
    ((∃ e, getLocationDetails r = .error e) ↔
      ((∃ e, r = .transportErr e) ∨
       (∃ status body, r = .response status body ∧ status ≠ 200) ∨
       (∃ status e, r = .response status (.readErr e)) ∨
       (∃ status e, r = .response status (.unmarshalErr e)) ∨
       (∃ status data, r = .response status (.decoded data) ∧
         ∀ address, assocLookup data "address".data ≠ some (Json.obj address)))) ∧
    (∀ status body, r = .response status body → status ≠ 200 →
      getLocationDetails r = .error ("API error: ".data ++ (Nat.repr status).data)) ∧
    (∀ data, r = .response 200 (.decoded data) →
      (∀ address, assocLookup data "address".data ≠ some (Json.obj address)) →
      getLocationDetails r = .error "invalid address data".data) := by
  refine ⟨⟨?_, ?_⟩, ?_, ?_⟩
  · intro ⟨e, he⟩
    match r with
    | .transportErr e' => exact Or.inl ⟨e', rfl⟩
    | .response status body =>
      by_cases hs : status = 200
      · subst hs
        match body with
        | .readErr e' => exact Or.inr (Or.inr (Or.inl ⟨200, e', rfl⟩))
        | .unmarshalErr e' => exact Or.inr (Or.inr (Or.inr (Or.inl ⟨200, e', rfl⟩)))
        | .decoded data =>
          refine Or.inr (Or.inr (Or.inr (Or.inr ⟨200, data, rfl, ?_⟩)))
          intro address haddr
          rw [show getLocationDetails (.response 200 (.decoded data)) =
            .ok [("country".data, getString address "country".data),
                 ("state".data, getString address "state".data),
                 ("state_district".data, getString address "state_district".data),
                 ("county".data, getString address "county".data)]
            from by simp [getLocationDetails, haddr]] at he
          exact Except.noConfusion he
      · exact Or.inr (Or.inl ⟨status, body, rfl, hs⟩)
  · rintro (⟨e, rfl⟩ | ⟨status, body, rfl, hs⟩ | ⟨status, e, rfl⟩ |
      ⟨status, e, rfl⟩ | ⟨status, data, rfl, haddr⟩)
    · exact ⟨e, rfl⟩
    · exact ⟨"API error: ".data ++ (Nat.repr status).data,
        by simp [getLocationDetails, hs]⟩
    · by_cases hs : status = 200
      · subst hs; exact ⟨e, by simp [getLocationDetails]⟩
      · exact ⟨"API error: ".data ++ (Nat.repr status).data,
          by simp [getLocationDetails, hs]⟩
    · by_cases hs : status = 200
      · subst hs; exact ⟨e, by simp [getLocationDetails]⟩
      · exact ⟨"API error: ".data ++ (Nat.repr status).data,
          by simp [getLocationDetails, hs]⟩
    · by_cases hs : status = 200
      · subst hs
        refine ⟨"invalid address data".data, ?_⟩
        cases hl : assocLookup data "address".data with
        | none => simp [getLocationDetails, hl]
        | some v =>
          cases v with
          | obj fields => exact absurd hl (haddr fields)
          | null => simp [getLocationDetails, hl]
          | bool b => simp [getLocationDetails, hl]
          | num s => simp [getLocationDetails, hl]
          | str s => simp [getLocationDetails, hl]
          | arr xs => simp [getLocationDetails, hl]
      · exact ⟨"API error: ".data ++ (Nat.repr status).data,
          by simp [getLocationDetails, hs]⟩
  · intro status body hr hs
    subst hr
    simp [getLocationDetails, hs]
  · intro data hr haddr
    subst hr
    cases hl : assocLookup data "address".data with
    | none => simp [getLocationDetails, hl]
    | some v =>
      cases v with
      | obj fields => exact absurd hl (haddr fields)
      | null => simp [getLocationDetails, hl]
      | bool b => simp [getLocationDetails, hl]
      | num s => simp [getLocationDetails, hl]
      | str s => simp [getLocationDetails, hl]
      | arr xs => simp [getLocationDetails, hl]

/-- Witness for C6: a 503 response fails with `API error: 503`, and a 200
response whose `address` member is a string fails with
`invalid address data`. -/
theorem claim_c6_geocode_failure_witness :
    getLocationDetails (.response 503 (.decoded [])) =
      .error "API error: 503".data ∧
    getLocationDetails (.response 200 (.decoded
      [("address".data, Json.str "nowhere".data)])) =
      .error "invalid address data".data := by
  constructor
  · have h := (claim_c6_geocode_failure (.response 503 (.decoded []))).2.1
      503 (.decoded []) rfl (by decide)
    rw [h]
    rfl
  · refine (claim_c6_geocode_failure (.response 200 (.decoded
      [("address".data, Json.str "nowhere".data)]))).2.2
      [("address".data, Json.str "nowhere".data)] rfl ?_
    intro address h
    rw [show assocLookup [("address".data, Json.str "nowhere".data)] "address".data =
      some (Json.str "nowhere".data) from rfl] at h
    exact Json.noConfusion (Option.some.inj h)

/-- C7 counterexample: a successful geocoding result whose `country` field
is the empty string — the upstream address carries `"country": ""`, the
client stringifies it to `""`, and the returned Place has an empty value,
contradicting the claim that every field of a successful result is a
non-empty string. -/
theorem claim_c7_counterexample :
    getLocationDetails (.response 200 (.decoded
      [("address".data, Json.obj [("country".data, Json.str [])])])) =
      .ok [("country".data, []),
           ("state".data, "Unknown".data),
           ("state_district".data, "Unknown".data),
           ("county".data, "Unknown".data)] ∧
    ([] : Str).length = 0 := by
  exact ⟨rfl, rfl⟩

/-- C7 as amended: every successful geocoding result is a map with exactly
the four named keys `country`, `state`, `state_district`, `county`; a key
whose upstream field is absent holds the non-empty literal `"Unknown"`,
while a present upstream field is stringified and may be any string,
including the empty one. -/
theorem claim_c7_place_shape (r : FetchResult) (place : List (Str × Str))
    (h : getLocationDetails r = .ok place) :
    place.map Prod.fst =
      ["country".data, "state".data, "state_district".data, "county".data] ∧
    "Unknown".data ≠ ([] : Str) ∧
    ∃ data address, r = .response 200 (.decoded data) ∧
      assocLookup data "address".data = some (Json.obj address) ∧
      place = [("country".data, getString address "country".data),
               ("state".data, getString address "state".data),
               ("state_district".data, getString address "state_district".data),
               ("county".data, getString address "county".data)] ∧
      ∀ key, key ∈ ["country".data, "state".data, "state_district".data,
          "county".data] →
        assocLookup address key = none →
        mapGetD place key = "Unknown".data := by
  match r with
  | .transportErr e => exact Except.noConfusion h
  | .response status body =>
    by_cases hs : status = 200
    · subst hs
      match body with
      | .readErr e => simp [getLocationDetails] at h
      | .unmarshalErr e => simp [getLocationDetails] at h
      | .decoded data =>
        cases hl : assocLookup data "address".data with
        | none =>
          rw [show getLocationDetails (.response 200 (.decoded data)) =
            .error "invalid address data".data from by simp [getLocationDetails, hl]] at h
          exact Except.noConfusion h
        | some v =>
          cases v with
          | obj address =>
            rw [show getLocationDetails (.response 200 (.decoded data)) =
              .ok [("country".data, getString address "country".data),
                   ("state".data, getString address "state".data),
                   ("state_district".data, getString address "state_district".data),
                   ("county".data, getString address "county".data)]
              from by simp [getLocationDetails, hl]] at h
            obtain rfl := Except.ok.inj h
            refine ⟨rfl, by decide, data, address, rfl, hl, rfl, ?_⟩
            intro key hkey
            fin_cases hkey
            · intro hnone
              show getString address "country".data = "Unknown".data
              simp [getString, hnone]
            · intro hnone
              show getString address "state".data = "Unknown".data
              simp [getString, hnone]
            · intro hnone
              show getString address "state_district".data = "Unknown".data
              simp [getString, hnone]
            · intro hnone
              show getString address "county".data = "Unknown".data
              simp [getString, hnone]
          | null =>
            rw [show getLocationDetails (.response 200 (.decoded data)) =
              .error "invalid address data".data from by simp [getLocationDetails, hl]] at h
            exact Except.noConfusion h
          | bool b =>
            rw [show getLocationDetails (.response 200 (.decoded data)) =
              .error "invalid address data".data from by simp [getLocationDetails, hl]] at h
            exact Except.noConfusion h
          | num s =>
            rw [show getLocationDetails (.response 200 (.decoded data)) =
              .error "invalid address data".data from by simp [getLocationDetails, hl]] at h
            exact Except.noConfusion h
          | str s =>
            rw [show getLocationDetails (.response 200 (.decoded data)) =
              .error "invalid address data".data from by simp [getLocationDetails, hl]] at h
            exact Except.noConfusion h
          | arr xs =>
            rw [show getLocationDetails (.response 200 (.decoded data)) =
              .error "invalid address data".data from by simp [getLocationDetails, hl]] at h
            exact Except.noConfusion h
    · rw [show getLocationDetails (.response status body) =
        .error ("API error: ".data ++ (Nat.repr status).data)
        from by simp [getLocationDetails, hs]] at h
      exact Except.noConfusion h

/-- Witness for C7 as amended, at an address object lacking all four
fields: the Place keys are exactly the four names and the absent `county`
field is the literal `Unknown`. -/
theorem claim_c7_place_shape_witness :
    (([("country".data, "Unknown".data), ("state".data, "Unknown".data),
       ("state_district".data, "Unknown".data),
       ("county".data, "Unknown".data)] : List (Str × Str)).map Prod.fst =
      ["country".data, "state".data, "state_district".data, "county".data]) ∧
    mapGetD [("country".data, "Unknown".data), ("state".data, "Unknown".data),
       ("state_district".data, "Unknown".data),
       ("county".data, "Unknown".data)] "county".data = "Unknown".data := by
  have h := claim_c7_place_shape (.response 200 (.decoded
      [("address".data, Json.obj [])]))
    [("country".data, "Unknown".data), ("state".data, "Unknown".data),
     ("state_district".data, "Unknown".data), ("county".data, "Unknown".data)]
    (by rfl)
  obtain ⟨h1, _, data, address, _, _, hplace, hkeys⟩ := h
  exact ⟨h1, rfl⟩

/-- C8 counterexample: when the API explicitly returns a JSON `null` for a
key, the key is present in the decoded map with a nil interface value, so
`getString` takes the found branch and the fallthrough stringifier renders
the nil interface as `<nil>` — not `Unknown` as claimed. -/
theorem claim_c8_counterexample :
    getString [("county".data, Json.null)] "county".data =
      '<' :: 'n' :: 'i' :: 'l' :: ['>'] ∧
    getString [("county".data, Json.null)] "county".data ≠ "Unknown".data := by
  exact ⟨rfl, by decide⟩

/-- C8 as amended: the geocoding client produces the literal `"Unknown"`
for a field exactly when the corresponding key is missing from the address
object; an explicit JSON `null` leaves the key present, and the
fallthrough stringifier renders it as `"<nil>"`. -/
theorem claim_c8_null_is_not_unknown (address : List (Str × Json)) (key : Str) :
    (assocLookup address key = none →
      getString address key = "Unknown".data) ∧
    (assocLookup address key = some Json.null →
      getString address key = '<' :: 'n' :: 'i' :: 'l' :: ['>']) := by
  constructor
  · intro h
    simp [getString, h]
  · intro h
    simp [getString, h, govString]

/-- Witness for C8 as amended, on an address carrying an explicit null
`county` and no `state` key. -/
theorem claim_c8_null_is_not_unknown_witness :
    getString [("county".data, Json.null)] "state".data = "Unknown".data ∧
    getString [("county".data, Json.null)] "county".data =
      '<' :: 'n' :: 'i' :: 'l' :: ['>'] := by
  constructor
  · exact (claim_c8_null_is_not_unknown [("county".data, Json.null)]
      "state".data).1 rfl
  · exact (claim_c8_null_is_not_unknown [("county".data, Json.null)]
      "county".data).2 rfl

/-! ## Paths built from regular segments -/

/-- A path segment on which `path.Clean` acts trivially: non-empty, free
of separators, and not one of the special elements `.` and `..`. -/
def regularSeg (s : Str) : Prop :=
  s ≠ [] ∧ '/' ∉ s ∧ s ≠ ['.'] ∧ s ≠ ['.', '.']

instance (s : Str) : Decidable (regularSeg s) := by
  unfold regularSeg
  infer_instance

theorem splitSlash_no_slash (s : Str) (h : '/' ∉ s) : splitSlash s = [s] := by
  induction s with
  | nil => rfl
  | cons c cs ih =>
    have hc : c ≠ '/' := fun hc => h (hc ▸ List.mem_cons_self c cs)
    have hcs : '/' ∉ cs := fun hm => h (List.mem_cons_of_mem c hm)
    simp [splitSlash, hc, ih hcs]

theorem splitSlash_append_slash (s t : Str) (h : '/' ∉ s) :
    splitSlash (s ++ '/' :: t) = s :: splitSlash t := by
  induction s with
  | nil => simp [splitSlash]
  | cons c cs ih =>
    have hc : c ≠ '/' := fun hc => h (hc ▸ List.mem_cons_self c cs)
    have hcs : '/' ∉ cs := fun hm => h (List.mem_cons_of_mem c hm)
    simp [splitSlash, hc, ih hcs]

theorem splitSlash_joinSlash (segs : List Str) (hne : segs ≠ [])
    (h : ∀ x ∈ segs, '/' ∉ x) : splitSlash (joinSlash segs) = segs := by
  induction segs with
  | nil => exact absurd rfl hne
  | cons s rest ih =>
    cases rest with
    | nil => exact splitSlash_no_slash s (h s (List.mem_cons_self s []))
    | cons s' rest' =>
      rw [show joinSlash (s :: s' :: rest') = s ++ '/' :: joinSlash (s' :: rest')
          from rfl,
        splitSlash_append_slash s _ (h s (List.mem_cons_self s _)),
        ih (by simp) (fun x hx => h x (List.mem_cons_of_mem s hx))]

theorem cleanStep_regular (rooted : Bool) (acc : List Str) (el : Str)
    (h : regularSeg el) : cleanStep rooted acc el = acc ++ [el] := by
  obtain ⟨h1, _, h3, h4⟩ := h
  rw [cleanStep, if_neg (by tauto), if_neg h4]

theorem foldl_cleanStep_regular (rooted : Bool) (segs : List Str)
    (h : ∀ x ∈ segs, regularSeg x) :
    ∀ acc, List.foldl (cleanStep rooted) acc segs = acc ++ segs := by
  induction segs with
  | nil => simp
  | cons s rest ih =>
    intro acc
    rw [List.foldl_cons, cleanStep_regular rooted acc s (h s (List.mem_cons_self s _)),
      ih (fun x hx => h x (List.mem_cons_of_mem s hx))]
    simp

theorem joinSlash_head? (s : Str) (rest : List Str) (h : s ≠ []) :
    (joinSlash (s :: rest)).head? = s.head? := by
  cases rest with
  | nil => rfl
  | cons s' rest' =>
    rw [show joinSlash (s :: s' :: rest') = s ++ '/' :: joinSlash (s' :: rest')
        from rfl]
    cases s with
    | nil => exact absurd rfl h
    | cons c cs => rfl

theorem pathClean_regular (segs : List Str) (hne : segs ≠ [])
    (h : ∀ x ∈ segs, regularSeg x) :
    pathClean (joinSlash segs) = joinSlash segs := by
  obtain ⟨s, rest, rfl⟩ : ∃ s rest, segs = s :: rest := by
    cases segs with
    | nil => exact absurd rfl hne
    | cons s rest => exact ⟨s, rest, rfl⟩
  have hs := h s (List.mem_cons_self s rest)
  obtain ⟨c, cs, hc⟩ : ∃ c cs, s = c :: cs := by
    cases s with
    | nil => exact absurd rfl hs.1
    | cons c cs => exact ⟨c, cs, rfl⟩
  have hhead : (joinSlash (s :: rest)).head? = some c := by
    rw [joinSlash_head? s rest hs.1, hc]; rfl
  have hnnil : joinSlash (s :: rest) ≠ [] := by
    intro hnil
    rw [hnil] at hhead
    exact Option.noConfusion hhead
  have hcslash : c ≠ '/' := by
    intro hceq
    exact hs.2.1 (by rw [hc, hceq]; exact List.mem_cons_self '/' cs)
  have hrooted : decide ((joinSlash (s :: rest)).head? = some '/') = false := by
    rw [hhead]
    simpa using hcslash
  rw [pathClean, if_neg hnnil]
  simp only [hrooted, Bool.false_eq_true, if_false]
  rw [splitSlash_joinSlash (s :: rest) hne (fun x hx => (h x hx).2.1),
    foldl_cleanStep_regular false (s :: rest) h []]
  simp [hnnil]

theorem joinSlash_append_single (xs : List Str) (y : Str) (h : xs ≠ []) :
    joinSlash (xs ++ [y]) = joinSlash xs ++ '/' :: y := by
  induction xs with
  | nil => exact absurd rfl h
  | cons s rest ih =>
    cases rest with
    | nil => rfl
    | cons s' rest' =>
      calc joinSlash ((s :: s' :: rest') ++ [y])
          = s ++ '/' :: joinSlash ((s' :: rest') ++ [y]) := rfl
        _ = s ++ '/' :: (joinSlash (s' :: rest') ++ '/' :: y) := by
            rw [ih (by simp)]
        _ = (s ++ '/' :: joinSlash (s' :: rest')) ++ '/' :: y := by simp
        _ = joinSlash (s :: s' :: rest') ++ '/' :: y := rfl

theorem filepathJoin_regular (segs : List Str) (hne : segs ≠ [])
    (h : ∀ x ∈ segs, regularSeg x) :
    filepathJoin segs = joinSlash segs := by
  obtain ⟨s, rest, rfl⟩ : ∃ s rest, segs = s :: rest := by
    cases segs with
    | nil => exact absurd rfl hne
    | cons s rest => exact ⟨s, rest, rfl⟩
  have hs0 := (h s (List.mem_cons_self s rest)).1
  have hs : s.isEmpty = false := by
    cases s with
    | nil => exact absurd rfl hs0
    | cons c cs => rfl
  rw [filepathJoin, List.dropWhile_cons_of_neg (by simp [hs])]
  exact pathClean_regular (s :: rest) hne h

/-! ## The mover on regular segments -/

theorem filepathJoin_pair (a b : Str) (ha : a ≠ []) :
    filepathJoin [a, b] = pathClean (a ++ '/' :: b) := by
  cases a with
  | nil => exact absurd rfl ha
  | cons c cs => rfl

theorem moveImageFolder_regular (c s sd cty : Str)
    (hc : regularSeg (sanitize c)) (hs : regularSeg (sanitize s))
    (hsd : regularSeg (sanitize sd)) (hcty : regularSeg (sanitize cty)) :
    moveImageFolder
        [("country".data, c), ("state".data, s),
         ("state_district".data, sd), ("county".data, cty)] =
      joinSlash ["sorted_images".data, sanitize c, sanitize s, sanitize sd,
        sanitize cty] := by
  have h : moveImageFolder
      [("country".data, c), ("state".data, s),
       ("state_district".data, sd), ("county".data, cty)] =
      filepathJoin ["sorted_images".data, sanitize c, sanitize s, sanitize sd,
        sanitize cty] := rfl
  rw [h]
  refine filepathJoin_regular _ (by simp) ?_
  intro x hx
  fin_cases hx
  · exact (by decide : regularSeg "sorted_images".data)
  · exact hc
  · exact hs
  · exact hsd
  · exact hcty

theorem moveImageNewPath_regular (imagePath c s sd cty : Str)
    (hc : regularSeg (sanitize c)) (hs : regularSeg (sanitize s))
    (hsd : regularSeg (sanitize sd)) (hcty : regularSeg (sanitize cty))
    (hb : regularSeg (filepathBase imagePath)) :
    moveImageNewPath imagePath
        [("country".data, c), ("state".data, s),
         ("state_district".data, sd), ("county".data, cty)] =
      joinSlash ["sorted_images".data, sanitize c, sanitize s, sanitize sd,
        sanitize cty, filepathBase imagePath] := by
  have hfolder := moveImageFolder_regular c s sd cty hc hs hsd hcty
  have hfolder_ne : moveImageFolder
      [("country".data, c), ("state".data, s),
       ("state_district".data, sd), ("county".data, cty)] ≠ [] := by
    rw [hfolder]
    intro hnil
    have h' := congrArg List.head? hnil
    rw [joinSlash_head? _ _ (by decide)] at h'
    exact Option.noConfusion h'
  rw [moveImageNewPath, filepathJoin_pair _ _ hfolder_ne, hfolder,
    ← joinSlash_append_single _ _ (by simp)]
  refine pathClean_regular _ (by simp) ?_
  intro x hx
  have hx' : x ∈ ["sorted_images".data, sanitize c, sanitize s, sanitize sd,
      sanitize cty, filepathBase imagePath] := hx
  fin_cases hx'
  · exact (by decide : regularSeg "sorted_images".data)
  · exact hc
  · exact hs
  · exact hsd
  · exact hcty
  · exact hb

/-- The moved file's path exactly as C1 words it: `sorted_images`, the
four sanitized fields and the basename of the source, joined with single
slash characters unconditionally. -/
def claimedNewPath (imagePath : Str) (location : List (Str × Str)) : Str :=
  "sorted_images".data ++ '/' ::
    (sanitize (mapGetD location "country".data) ++ '/' ::
      (sanitize (mapGetD location "state".data) ++ '/' ::
        (sanitize (mapGetD location "state_district".data) ++ '/' ::
          (sanitize (mapGetD location "county".data) ++ '/' ::
            filepathBase imagePath))))

/-- C1 counterexample: for a Place whose `country` is the empty string,
`filepath.Join` cleans the doubled separator away, so the moved file's
path is three directory levels deep and differs from the literal
`sorted_images/<country>/<state>/<state_district>/<county>/<basename>`
construction the claim states for every Place. -/
theorem claim_c1_counterexample :
    moveImageNewPath "images/a.jpg".data
        [("country".data, []), ("state".data, "California".data),
         ("state_district".data, "Unknown".data),
         ("county".data, "Alameda_County".data)] =
      "sorted_images/California/Unknown/Alameda_County/a.jpg".data ∧
    claimedNewPath "images/a.jpg".data
        [("country".data, []), ("state".data, "California".data),
         ("state_district".data, "Unknown".data),
         ("county".data, "Alameda_County".data)] =
      "sorted_images//California/Unknown/Alameda_County/a.jpg".data ∧
    moveImageNewPath "images/a.jpg".data
        [("country".data, []), ("state".data, "California".data),
         ("state_district".data, "Unknown".data),
         ("county".data, "Alameda_County".data)] ≠
      claimedNewPath "images/a.jpg".data
        [("country".data, []), ("state".data, "California".data),
         ("state_district".data, "Unknown".data),
         ("county".data, "Alameda_County".data)] := by
  refine ⟨by decide, by decide, by decide⟩

/-- C1 as amended: for every source path and every Place whose sanitized
fields are regular path segments (non-empty, separator-free, not `.` or
`..`), and whose source basename is likewise regular, the destination
directory is literally
`sorted_images/sanitize(country)/sanitize(state)/sanitize(state_district)/sanitize(county)`
and the moved file's new path is that directory joined with
`basename(source)`, the base filename preserved exactly; for other Places
`filepath.Join` lexically cleans the constructed path. -/
theorem claim_c1_move_construction (imagePath c s sd cty : Str)
    (hc : regularSeg (sanitize c)) (hs : regularSeg (sanitize s))
    (hsd : regularSeg (sanitize sd)) (hcty : regularSeg (sanitize cty))
    (hb : regularSeg (filepathBase imagePath)) :
    moveImageFolder
        [("country".data, c), ("state".data, s),
         ("state_district".data, sd), ("county".data, cty)] =
      "sorted_images".data ++ '/' ::
        (sanitize c ++ '/' :: (sanitize s ++ '/' ::
          (sanitize sd ++ '/' :: sanitize cty))) ∧
    moveImageNewPath imagePath
        [("country".data, c), ("state".data, s),
         ("state_district".data, sd), ("county".data, cty)] =
      moveImageFolder
        [("country".data, c), ("state".data, s),
         ("state_district".data, sd), ("county".data, cty)] ++
        '/' :: filepathBase imagePath := by
  have h1 := moveImageFolder_regular c s sd cty hc hs hsd hcty
  have h2 := moveImageNewPath_regular imagePath c s sd cty hc hs hsd hcty hb
  constructor
  · rw [h1]
    rfl
  · rw [h2, h1]
    rw [show (["sorted_images".data, sanitize c, sanitize s, sanitize sd,
        sanitize cty, filepathBase imagePath] : List Str) =
      ["sorted_images".data, sanitize c, sanitize s, sanitize sd,
        sanitize cty] ++ [filepathBase imagePath] from rfl]
    exact joinSlash_append_single _ _ (by simp)

/-- Witness for C1 as amended, at the Place
(United States, California, Unknown, San Francisco County) and the source
`images/trip.jpg`. -/
theorem claim_c1_move_construction_witness :
    moveImageFolder
        [("country".data, "United States".data),
         ("state".data, "California".data),
         ("state_district".data, "Unknown".data),
         ("county".data, "San Francisco County".data)] =
      "sorted_images/United_States/California/Unknown/San_Francisco_County".data ∧
    moveImageNewPath "images/trip.jpg".data
        [("country".data, "United States".data),
         ("state".data, "California".data),
         ("state_district".data, "Unknown".data),
         ("county".data, "San Francisco County".data)] =
      "sorted_images/United_States/California/Unknown/San_Francisco_County".data ++
        '/' :: "trip.jpg".data := by
  have h := claim_c1_move_construction "images/trip.jpg".data
    "United States".data "California".data "Unknown".data
    "San Francisco County".data
    (by decide) (by decide) (by decide) (by decide) (by decide)
  refine ⟨?_, ?_⟩
  · rw [h.1]
    decide
  · rw [h.2, h.1]
    decide

/-- C9 counterexample: moving a file with the claim's literal place
(US, California, "", Alameda County) — the `state_district` field empty —
produces a path only three directory levels below `sorted_images`, because
`filepath.Join` drops the empty component; so the destination path does
not always have exactly four directory levels under `sorted_images`. -/
theorem claim_c9_counterexample :
    splitSlash (moveImageNewPath "images/photo.jpg".data
        [("country".data, "US".data), ("state".data, "California".data),
         ("state_district".data, []),
         ("county".data, "Alameda County".data)]) =
      ["sorted_images".data, "US".data, "California".data,
       "Alameda_County".data, "photo.jpg".data] ∧
    (["sorted_images".data, "US".data, "California".data,
      "Alameda_County".data, "photo.jpg".data] : List Str).length ≠ 6 := by
  refine ⟨by decide, by decide⟩

/-- C9 as amended: after moving a file with the Place the geocoding client
actually returns for that point — (US, California, Unknown, Alameda
County), `Unknown` substituted for the missing `state_district` — the new
path is `sorted_images/US/California/Unknown/Alameda_County/<basename>`;
and the destination path has exactly four directory levels under
`sorted_images` whenever the four sanitized fields and the basename are
regular path segments (a field that is empty or contains a separator
changes the depth). -/
theorem claim_c9_destination_shape (imagePath c s sd cty : Str)
    (hc : regularSeg (sanitize c)) (hs : regularSeg (sanitize s))
    (hsd : regularSeg (sanitize sd)) (hcty : regularSeg (sanitize cty))
    (hb : regularSeg (filepathBase imagePath)) :
    moveImageNewPath "images/photo.jpg".data
        [("country".data, "US".data), ("state".data, "California".data),
         ("state_district".data, "Unknown".data),
         ("county".data, "Alameda County".data)] =
      "sorted_images/US/California/Unknown/Alameda_County/photo.jpg".data ∧
    splitSlash (moveImageNewPath imagePath
        [("country".data, c), ("state".data, s),
         ("state_district".data, sd), ("county".data, cty)]) =
      ["sorted_images".data, sanitize c, sanitize s, sanitize sd,
       sanitize cty, filepathBase imagePath] := by
  constructor
  · decide
  · rw [moveImageNewPath_regular imagePath c s sd cty hc hs hsd hcty hb]
    refine splitSlash_joinSlash _ (by simp) ?_
    intro x hx
    fin_cases hx
    · exact (by decide : '/' ∉ "sorted_images".data)
    · exact hc.2.1
    · exact hs.2.1
    · exact hsd.2.1
    · exact hcty.2.1
    · exact hb.2.1

/-- Witness for C9 as amended: the concrete path and its five components
for source `images/photo.jpg` and Place
(US, California, Unknown, Alameda County). -/
theorem claim_c9_destination_shape_witness :
    splitSlash (moveImageNewPath "images/photo.jpg".data
        [("country".data, "US".data), ("state".data, "California".data),
         ("state_district".data, "Unknown".data),
         ("county".data, "Alameda County".data)]) =
      ["sorted_images".data, "US".data, "California".data, "Unknown".data,
       "Alameda_County".data, "photo.jpg".data] := by
  exact (claim_c9_destination_shape "images/photo.jpg".data "US".data
    "California".data "Unknown".data "Alameda County".data
    (by decide) (by decide) (by decide) (by decide) (by decide)).2

/-- C10: `sanitize` passes the path separator through, so a Place with
`country = "a/b"` yields a destination five directory levels below
`sorted_images` (`filepath.Join` interprets the separator), while a Place
with an empty `country` yields only three levels (`filepath.Join` drops
the empty component). -/
theorem claim_c10_separator_and_empty :
    sanitize "a/b".data = "a/b".data ∧
    splitSlash (moveImageNewPath "images/x.jpg".data
        [("country".data, "a/b".data), ("state".data, "State".data),
         ("state_district".data, "District".data),
         ("county".data, "County".data)]) =
      ["sorted_images".data, "a".data, "b".data, "State".data,
       "District".data, "County".data, "x.jpg".data] ∧
    splitSlash (moveImageNewPath "images/x.jpg".data
        [("country".data, []), ("state".data, "State".data),
         ("state_district".data, "District".data),
         ("county".data, "County".data)]) =
      ["sorted_images".data, "State".data, "District".data, "County".data,
       "x.jpg".data] := by
  refine ⟨by decide, by decide, by decide⟩

/-! ## The driver -/

/-- C4: for every candidate file, in listing order: an EXIF failure emits
`No GPS data found for <name>` and performs no rename and no further stage;
a geocoding failure emits `Error getting location for <name>: <err>` and
performs no rename; otherwise the `Moving <name> to
<country>/<state>/<state_district>/<county>` line with the unsanitized
values is emitted before the mover runs, and a failed move additionally
emits `Error moving file: <err>` with no rename; and the file's lines and
renames are followed by those of the remaining files unchanged, so no
per-file failure affects the processing of any other file. -/
theorem claim_c4_driver_per_file (env : Env) (directory : Str)
    (f : DirEntry) (fs : List DirEntry) (hcand : isCandidate f = true) :
    (processImages env directory (f :: fs) =
      ((processOne env directory f).1 ++ (processImages env directory fs).1,
       (processOne env directory f).2 ++ (processImages env directory fs).2)) ∧
    (∀ e, env.exif (filepathJoin [directory, f.name]) = .error e →
      processOne env directory f =
        (["No GPS data found for ".data ++ f.name], [])) ∧
    (∀ coord err, env.exif (filepathJoin [directory, f.name]) = .ok coord →
      getLocationDetails (env.geo coord) = .error err →
      processOne env directory f =
        (["Error getting location for ".data ++ f.name ++ ": ".data ++ err],
         [])) ∧
    (∀ coord location e,
      env.exif (filepathJoin [directory, f.name]) = .ok coord →
      getLocationDetails (env.geo coord) = .ok location →
      moveImage env (filepathJoin [directory, f.name]) location = .error e →
      processOne env directory f =
        ([movingLine f.name location, "Error moving file: ".data ++ e], [])) ∧
    (∀ coord location newPath,
      env.exif (filepathJoin [directory, f.name]) = .ok coord →
      getLocationDetails (env.geo coord) = .ok location →
      moveImage env (filepathJoin [directory, f.name]) location = .ok newPath →
      processOne env directory f =
        ([movingLine f.name location],
         [(filepathJoin [directory, f.name], newPath)])) := by
  refine ⟨rfl, ?_, ?_, ?_, ?_⟩
  · intro e he
    simp [processOne, hcand, he]
  · intro coord err hexif hgeo
    simp [processOne, hcand, hexif, hgeo]
  · intro coord location e hexif hgeo hmove
    simp [processOne, hcand, hexif, hgeo, hmove]
  · intro coord location newPath hexif hgeo hmove
    simp [processOne, hcand, hexif, hgeo, hmove]

/-- An environment whose oracles all succeed: EXIF yields a coordinate,
the fetch returns a 200 response whose address object carries only a
`country`, and both filesystem calls succeed. -/
def envOk : Env where
  exif := fun _ => .ok ⟨37, -122⟩
  geo := fun _ => .response 200 (.decoded
    [("address".data, Json.obj [("country".data, Json.str "France".data)])])
  mkdirErr := fun _ => none
  renameErr := fun _ _ => none

/-- Witness for C4: under the failing environment a candidate produces
exactly the `No GPS data found` line and no rename, and under the
all-success environment it produces exactly the `Moving` line and one
rename into `sorted_images`. -/
theorem claim_c4_driver_per_file_witness :
    processImages envNone "images".data [⟨"trip.jpg".data, false⟩] =
      (["No GPS data found for trip.jpg".data], []) ∧
    processImages envOk "images".data [⟨"trip.jpg".data, false⟩] =
      (["Moving trip.jpg to France/Unknown/Unknown/Unknown".data],
       [("images/trip.jpg".data,
         "sorted_images/France/Unknown/Unknown/Unknown/trip.jpg".data)]) := by
  constructor
  · have h := claim_c4_driver_per_file envNone "images".data
      ⟨"trip.jpg".data, false⟩ [] (by decide)
    rw [h.1, h.2.1 "exif failure".data rfl]
    decide
  · have h := claim_c4_driver_per_file envOk "images".data
      ⟨"trip.jpg".data, false⟩ [] (by decide)
    rw [h.1, h.2.2.2.2 ⟨37, -122⟩
      [("country".data, "France".data), ("state".data, "Unknown".data),
       ("state_district".data, "Unknown".data),
       ("county".data, "Unknown".data)]
      "sorted_images/France/Unknown/Unknown/Unknown/trip.jpg".data
      rfl rfl rfl]
    decide

end PicSorter
